import Mathlib

/-!
Shallow embedding of the dinequickly/chessmcp repository.

Part 1 embeds src/scripts/chess_commentary.py: the Commentary Generator
CLI (argument ingestion, device and dtype selection, prompt building, the
generation attempt with its single MPS-to-CPU fallback, output decoding,
and the top-level error boundary).  External collaborators (torch backend
probes, the tokenizer, the model) are modelled as an explicit environment
of functions; the control flow of the script itself is translated line by
line.

Part 2 embeds the segment endpoint of src/sam3_api.py.
-/

namespace ChessMCP

/-- Character-list matching: leadsWith v h is true when v occurs at the
very start of h.  This is the position-wise comparison underlying the
Python substring operator. -/
def leadsWith : List Char → List Char → Bool
  | [], _ => true
  | _ :: _, [] => false
  | a :: as, b :: bs => a == b && leadsWith as bs

/-- hasSub v h is true when v occurs contiguously somewhere inside h. -/
def hasSub (v : List Char) : List Char → Bool
  | [] => leadsWith v []
  | c :: rest => leadsWith v (c :: rest) || hasSub v rest

/-- Model of the Python membership test on strings: strContains hay sub
is the value of the expression sub in hay. -/
def strContains (hay sub : String) : Bool :=
  hasSub sub.data hay.data

/-- Compute device, as probed in chess_commentary.py lines 21 to 29. -/
inductive Device where
  | cuda
  | mps
  | cpu
  deriving DecidableEq

/-- Numeric precision chosen for the model weights. -/
inductive Dtype where
  | float16
  | float32
  deriving DecidableEq

/-- Device and dtype selection, chess_commentary.py lines 21 to 29:
cuda with float16 when the cuda backend is available, else mps with
float32 when the mps backend is available, else cpu with float32. -/
def selectDevice (cuda_ok mps_ok : Bool) : Device × Dtype :=
  if cuda_ok then (Device.cuda, Dtype.float16)
  else if mps_ok then (Device.mps, Dtype.float32)
  else (Device.cpu, Dtype.float32)

/-- Sampling parameters passed to model.generate.  The literal 0.7 of the
source is carried as the rational 7/10. -/
structure GenParams where
  max_new_tokens : Nat
  temperature : ℚ
  do_sample : Bool
  deriving DecidableEq

/-- The fixed sampling parameters of both generate calls,
chess_commentary.py lines 62 to 67 and 74 to 79. -/
def genParams : GenParams :=
  { max_new_tokens := 256, temperature := 7/10, do_sample := true }

/-- The six required CLI values, chess_commentary.py lines 8 to 13. -/
structure MoveArgs where
  fen : String
  move : String
  side : String
  tag : String
  best_alt : String
  cp : String

/-- The ordered list of Move Facts field values interpolated into the
user message (the record has exactly these six fields). -/
def moveFactsFields (a : MoveArgs) : List String :=
  [a.fen, a.move, a.side, a.tag, a.best_alt, a.cp]

/-- One chat message. -/
structure Message where
  role : String
  content : String

/-- The fixed system instruction string, chess_commentary.py line 42. -/
def systemContent : String :=
  "Generate professional chess commentary in the specified language. For Type=standard use 30–40 words. For Type=explanation, explain the best move briefly (≤50 words). Return exactly: Commentary, Predicted ELO, Verified Classification."

/-- The interpolated user fact sheet, chess_commentary.py lines 46 to 55. -/
def userContent (a : MoveArgs) : String :=
  "LanguageL: English\nLangCode: en\nType: standard\nFEN: " ++ a.fen ++
  "\nMoveSAN: " ++ a.move ++
  "\nSide: " ++ a.side ++
  "\nActor: bot\nTag: " ++ a.tag ++
  "\nBestAlt: " ++ a.best_alt ++
  "\nCP: " ++ a.cp

/-- The two-message prompt, chess_commentary.py lines 39 to 57. -/
def buildMessages (a : MoveArgs) : List Message :=
  [ { role := "system", content := systemContent },
    { role := "user", content := userContent a } ]

/-- Python exceptions reaching the orchestrator: RuntimeError (the only
class caught by the inner handler at line 68) versus every other
Exception.  The carried string is str(e). -/
inductive PyError where
  | runtimeError (m : String)
  | otherError (m : String)

/-- The message str(e) of an exception. -/
def PyError.msg : PyError → String
  | .runtimeError m => m
  | .otherError m => m

/-- The guard of the inner except handler, chess_commentary.py line 69:
the exception is a RuntimeError, the active device is mps, and its
message contains the degenerate-probability indicator. -/
def isRecoverable (device : Device) (e : PyError) : Bool :=
  match e with
  | .runtimeError m => decide (device = Device.mps) && strContains m "probability tensor contains"
  | .otherError _ => false

/-- Record of one model.generate invocation: where the model weights and
the input tokens sit when the call is issued, the input tokens, and the
sampling parameters. -/
structure GenCall where
  modelDevice : Device
  inputsDevice : Device
  inputs : List Nat
  params : GenParams
  deriving DecidableEq

/-- External collaborators of the script, as an environment: the two
backend availability probes, tokenizer and model loading (which may raise),
chat templating, generation (which may raise), and decoding.  The Bool
argument of decode is skip_special_tokens. -/
structure Env where
  cuda_available : Bool
  mps_available : Bool
  load_tokenizer : Except PyError Unit
  load_model : Dtype → Device → Except PyError Unit
  apply_chat_template : List Message → List Nat
  generate : Device → GenParams → List Nat → Except PyError (List Nat)
  decode : List Nat → Bool → String

/-- The device and dtype plan the script computes at startup. -/
def planOf (env : Env) : Device × Dtype :=
  selectDevice env.cuda_available env.mps_available

/-- The input token sequence: apply_chat_template over the prompt,
chess_commentary.py line 59 (outputs a single row; its length is
inputs.shape 1 of the source). -/
def inputsOf (env : Env) (a : MoveArgs) : List Nat :=
  env.apply_chat_template (buildMessages a)

/-- Diagnostic line printed before loading, chess_commentary.py line 31. -/
def deviceName : Device → String
  | .cuda => "cuda"
  | .mps => "mps"
  | .cpu => "cpu"

/-- Printed form of the torch dtype. -/
def dtypeName : Dtype → String
  | .float16 => "torch.float16"
  | .float32 => "torch.float32"

/-- The loading diagnostic line, chess_commentary.py line 31. -/
def loadingLine (d : Device) (t : Dtype) : String :=
  "Loading model on " ++ deviceName d ++ " (" ++ dtypeName t ++ ")..."

/-- The fallback diagnostic line, chess_commentary.py line 70. -/
def retryLine : String := "MPS generation failed; retrying on CPU."

/-- Body of the outer try block, chess_commentary.py lines 20 to 95,
with the device plan already computed.  Returns the Except result of the
block (ok carries the stdout lines), the stderr lines emitted so far, and
the trace of model.generate invocations.  The first generate call places
model and inputs on the selected device (lines 37 and 59); on the guarded
RuntimeError both are moved to cpu and generation is retried once with
the same parameters (lines 69 to 79); any other failure, and a failure of
the retry itself, propagates (line 81).  On success only the tokens past
the input length are decoded, with skip_special_tokens true (line 94).
The full decode of line 83 is computed by the source and discarded. -/
def tryBody (env : Env) (a : MoveArgs) (device : Device) (dtype : Dtype) :
    Except PyError (List String) × List String × List GenCall :=
  let errs := [loadingLine device dtype]
  match env.load_tokenizer with
  | .error e => (.error e, errs, [])
  | .ok _ =>
    match env.load_model dtype device with
    | .error e => (.error e, errs, [])
    | .ok _ =>
      let inputs := env.apply_chat_template (buildMessages a)
      match env.generate device genParams inputs with
      | .ok outputs =>
          (.ok [env.decode (List.drop inputs.length outputs) true],
           errs,
           [⟨device, device, inputs, genParams⟩])
      | .error e =>
          if isRecoverable device e then
            match env.generate Device.cpu genParams inputs with
            | .ok outputs =>
                (.ok [env.decode (List.drop inputs.length outputs) true],
                 errs ++ [retryLine],
                 [⟨device, device, inputs, genParams⟩,
                  ⟨Device.cpu, Device.cpu, inputs, genParams⟩])
            | .error e2 =>
                (.error e2,
                 errs ++ [retryLine],
                 [⟨device, device, inputs, genParams⟩,
                  ⟨Device.cpu, Device.cpu, inputs, genParams⟩])
          else
            (.error e, errs, [⟨device, device, inputs, genParams⟩])

/-- Observable outcome of one process run. -/
structure RunResult where
  exitCode : Nat
  stdout : List String
  stderr : List String
  genCalls : List GenCall
  loadAttempted : Bool
  devicePlan : Option (Device × Dtype)

/-- The outer except handler, chess_commentary.py lines 97 to 99: an ok
body prints its lines and the process ends with code 0; an escaped
exception prints Error: str(e) to stderr and the process exits 1. -/
def finishRun (p : Device × Dtype)
    (r : Except PyError (List String) × List String × List GenCall) : RunResult :=
  match r.1 with
  | .ok outs =>
      { exitCode := 0, stdout := outs, stderr := r.2.1, genCalls := r.2.2,
        loadAttempted := true, devicePlan := some p }
  | .error e =>
      { exitCode := 1, stdout := [], stderr := r.2.1 ++ ["Error: " ++ e.msg],
        genCalls := r.2.2, loadAttempted := true, devicePlan := some p }

/-- The whole try/except flow of main after argument parsing. -/
def runMain (env : Env) (a : MoveArgs) : RunResult :=
  finishRun (planOf env) (tryBody env a (planOf env).1 (planOf env).2)

/-- The raw command line: for each of the six required flags, the value
supplied, or none when the flag is absent. -/
structure Argv where
  fen : Option String
  move : Option String
  side : Option String
  tag : Option String
  best_alt : Option String
  cp : Option String

/-- argparse with six required arguments, chess_commentary.py lines 7 to
15: parsing succeeds exactly when every flag is present. -/
def parseArgs (v : Argv) : Option MoveArgs :=
  match v.fen, v.move, v.side, v.tag, v.best_alt, v.cp with
  | some f, some m, some s, some t, some b, some c =>
      some { fen := f, move := m, side := s, tag := t, best_alt := b, cp := c }
  | _, _, _, _, _, _ => none

/-- Outcome of an argparse usage error: ArgumentParser.error prints the
usage text to stderr and terminates the process with status 2 (standard
documented argparse behaviour); this happens at line 15, before the try
block, before device selection and before any load. -/
def usageErrorResult : RunResult :=
  { exitCode := 2, stdout := [],
    stderr := ["usage: chess_commentary: error: a required argument is missing"],
    genCalls := [], loadAttempted := false, devicePlan := none }

/-- The full CLI entry point, chess_commentary.py main. -/
def runCLI (env : Env) (v : Argv) : RunResult :=
  match parseArgs v with
  | none => usageErrorResult
  | some a => runMain env a

/-! Part 2: the segment endpoint of src/sam3_api.py, lines 48 to 76. -/

/-- The inference state returned by the processor after set_image and
set_text_prompt.  pred_boxes is none when the key is absent or its value
is None (both skipped by the guard at line 66); pred_scores is none when
the key is absent (line 68).  Boxes and scores are carried as exact
rational lists. -/
structure InferenceState where
  pred_boxes : Option (List (List ℚ))
  pred_scores : Option (List ℚ)

/-- One entry of the response results list, sam3_api.py lines 71 to 74. -/
structure SegResult where
  box : List ℚ
  score : Option ℚ
  deriving DecidableEq

/-- The JSON response of the endpoint, sam3_api.py line 76. -/
structure SegResponse where
  results : List SegResult
  count : Nat
  deriving DecidableEq

/-- The request body fields the endpoint reads: each is none when the key
is absent from the JSON object. -/
structure SegRequest where
  image_base64 : Option String
  prompt : Option String
  confidence : Option ℚ

/-- The loop of sam3_api.py lines 70 to 74: pair each box with
scores at the same index, giving None past the end of scores
(the source writes scores at i if i is below len scores, else None,
which is exactly List.get? i). -/
def segResults (boxes : List (List ℚ)) (scores : List ℚ) : List SegResult :=
  boxes.enum.map (fun p => { box := p.2, score := scores.get? p.1 })

/-- The segment endpoint, sam3_api.py lines 49 to 76.  rm models the
composition of Sam3Processor construction, set_image on the decoded
request image, and set_text_prompt, as a function of the text prompt and
the confidence threshold.  A missing prompt key defaults to the string
object (line 58) and a missing confidence key defaults to 1/2 (line 59,
the literal 0.5). -/
def segment (rm : String → ℚ → InferenceState) (req : SegRequest) : SegResponse :=
  let text_prompt := req.prompt.getD "object"
  let confidence := req.confidence.getD (1/2)
  let st := rm text_prompt confidence
  let results :=
    match st.pred_boxes with
    | none => []
    | some boxes => segResults boxes (st.pred_scores.getD [])
  { results := results, count := results.length }

/-- Positional rendering of the loop of sam3_api.py lines 70 to 74, used
to reason about segResults by structural recursion. -/
def buildResults : List (List ℚ) → List ℚ → List SegResult
  | [], _ => []
  | b :: bs, [] => { box := b, score := none } :: buildResults bs []
  | b :: bs, s :: ss => { box := b, score := some s } :: buildResults bs ss

/-! Helper lemmas about the substring test. -/

theorem leadsWith_append (v w : List Char) : leadsWith v (v ++ w) = true := by
  induction v with
  | nil => rfl
  | cons a as ih => simp [leadsWith, ih]

theorem leadsWith_self (v : List Char) : leadsWith v v = true := by
  simpa using leadsWith_append v []

theorem leadsWith_extend (v : List Char) :
    ∀ x y, leadsWith v x = true → leadsWith v (x ++ y) = true := by
  induction v with
  | nil => intro x y _; rfl
  | cons a as ih =>
    intro x y h
    cases x with
    | nil => exact absurd h (by simp [leadsWith])
    | cons b bs =>
      simp only [leadsWith, Bool.and_eq_true] at h
      simp only [List.cons_append, leadsWith, Bool.and_eq_true]
      exact ⟨h.1, ih bs y h.2⟩

theorem hasSub_of_leadsWith (v h : List Char) (hl : leadsWith v h = true) :
    hasSub v h = true := by
  cases h with
  | nil => simpa [hasSub] using hl
  | cons c rest => simp [hasSub, hl]

theorem hasSub_append_right (v x y : List Char) (h : hasSub v y = true) :
    hasSub v (x ++ y) = true := by
  induction x with
  | nil => simpa using h
  | cons c cs ih => simp [hasSub, ih]

theorem hasSub_append_left (v : List Char) :
    ∀ x y, hasSub v x = true → hasSub v (x ++ y) = true := by
  intro x
  induction x with
  | nil =>
    intro y h
    exact hasSub_of_leadsWith v y (leadsWith_extend v [] y (by simpa [hasSub] using h))
  | cons c cs ih =>
    intro y h
    simp only [hasSub, Bool.or_eq_true] at h
    rcases h with h | h
    · exact hasSub_of_leadsWith _ _ (leadsWith_extend v (c :: cs) y h)
    · simp only [List.cons_append, hasSub, Bool.or_eq_true]
      exact Or.inr (ih y h)

theorem hasSub_self (v : List Char) : hasSub v v = true :=
  hasSub_of_leadsWith v v (leadsWith_self v)

theorem strContains_self (v : String) : strContains v v = true := by
  simpa [strContains] using hasSub_self v.data

theorem strContains_append_right (x y v : String) (h : strContains y v = true) :
    strContains (x ++ y) v = true := by
  simp only [strContains, String.data_append]
  exact hasSub_append_right _ _ _ h

theorem strContains_append_left (x y v : String) (h : strContains x v = true) :
    strContains (x ++ y) v = true := by
  simp only [strContains, String.data_append]
  exact hasSub_append_left _ _ _ h

/-! Helper lemmas for the segment endpoint. -/

theorem get?_drop_head (l : List ℚ) (n : Nat) : l.get? n = (l.drop n).head? := by
  rw [List.head?_drop]
  exact List.get?_eq_getElem? l n

theorem segResults_enumFrom (boxes : List (List ℚ)) :
    ∀ (n : Nat) (scores : List ℚ),
      (List.enumFrom n boxes).map
          (fun p => ({ box := p.2, score := scores.get? p.1 } : SegResult)) =
        buildResults boxes (scores.drop n) := by
  induction boxes with
  | nil => intro n scores; rfl
  | cons b bs ih =>
    intro n scores
    rw [List.enumFrom_cons, List.map_cons, ih (n + 1) scores]
    rw [get?_drop_head scores n, show scores.drop (n + 1) = (scores.drop n).drop 1 from
      (List.drop_drop 1 n scores).symm]
    cases h : scores.drop n with
    | nil => simp [buildResults]
    | cons s ss => simp [buildResults]

theorem segResults_eq_buildResults (boxes : List (List ℚ)) (scores : List ℚ) :
    segResults boxes scores = buildResults boxes scores := by
  simpa [segResults, List.enum] using segResults_enumFrom boxes 0 scores

theorem buildResults_nil_all_none (boxes : List (List ℚ)) :
    ((buildResults boxes []).all fun r => r.score.isNone) = true := by
  induction boxes with
  | nil => rfl
  | cons b bs ih => simp [buildResults, ih]

theorem buildResults_drop_all_none (scores : List ℚ) :
    ∀ boxes, (((buildResults boxes scores).drop scores.length).all
      fun r => r.score.isNone) = true := by
  induction scores with
  | nil => intro boxes; simpa using buildResults_nil_all_none boxes
  | cons s ss ih =>
    intro boxes
    cases boxes with
    | nil => simp [buildResults]
    | cons b bs => simpa [buildResults] using ih bs

/-! Helper lemmas for the CLI flow. -/

theorem finishRun_devicePlan (p : Device × Dtype)
    (r : Except PyError (List String) × List String × List GenCall) :
    (finishRun p r).devicePlan = some p := by
  obtain ⟨res, rest⟩ := r
  cases res <;> rfl

theorem finishRun_genCalls (p : Device × Dtype)
    (r : Except PyError (List String) × List String × List GenCall) :
    (finishRun p r).genCalls = r.2.2 := by
  obtain ⟨res, rest⟩ := r
  cases res <;> rfl

/-- C2: device and precision selection is the deterministic function of
the two availability flags given by the table cuda to (cuda, half
precision), else mps to (mps, full precision), else (cpu, full
precision); the mps device is never paired with half precision; and the
plan recorded by a run of main is exactly this function of the probed
flags. -/
theorem C2_device_precision_plan :
    (∀ m, selectDevice true m = (Device.cuda, Dtype.float16)) ∧
    selectDevice false true = (Device.mps, Dtype.float32) ∧
    selectDevice false false = (Device.cpu, Dtype.float32) ∧
    (∀ c m, selectDevice c m ≠ (Device.mps, Dtype.float16)) ∧
    (∀ (env : Env) (a : MoveArgs),
      (runMain env a).devicePlan =
        some (selectDevice env.cuda_available env.mps_available)) := by
  refine ⟨by decide, by decide, by decide, by decide, ?_⟩
  intro env a
  exact finishRun_devicePlan _ _

/-- C10: the segment endpoint treats a missing prompt key as the text
prompt object and a missing confidence key as the threshold 1/2; its
response always satisfies count equal to the length of results; and every
result whose index is at or past the number of scores returned by the
model has score None. -/
theorem C10_segment_defaults_counts_scores
    (rm : String → ℚ → InferenceState) (req : SegRequest) :
    segment rm { req with prompt := none } =
      segment rm { req with prompt := some "object" } ∧
    segment rm { req with confidence := none } =
      segment rm { req with confidence := some (1/2) } ∧
    (segment rm req).count = (segment rm req).results.length ∧
    (((segment rm req).results.drop
        (((rm (req.prompt.getD "object")
            (req.confidence.getD (1/2))).pred_scores.getD []).length)).all
      fun r => r.score.isNone) = true := by
  refine ⟨rfl, rfl, rfl, ?_⟩
  show (((segment rm req).results.drop _).all fun r => r.score.isNone) = true
  simp only [segment]
  cases hb : (rm (req.prompt.getD "object") (req.confidence.getD (1/2))).pred_boxes with
  | none => simp [hb]
  | some boxes =>
    simp only [hb]
    rw [segResults_eq_buildResults]
    exact buildResults_drop_all_none _ _

/-- C5 (amended): for every complete Move Facts record the Prompt Builder
produces exactly two messages in strict order, first role system with the
fixed instruction string, then role user with the interpolated fact
sheet, and the user message contains all six input values verbatim as
substrings; the builder is a total function of the record, so it never
fails on malformed but present field values. -/
theorem C5_prompt_builder_two_messages (a : MoveArgs) :
    (buildMessages a).map Message.role = ["system", "user"] ∧
    (buildMessages a).map Message.content = [systemContent, userContent a] ∧
    ((moveFactsFields a).all fun v => strContains (userContent a) v) = true := by
  refine ⟨rfl, rfl, ?_⟩
  simp only [moveFactsFields, List.all_cons, List.all_nil, Bool.and_true,
    Bool.and_eq_true]
  refine ⟨?_, ?_, ?_, ?_, ?_, ?_⟩ <;>
  · unfold userContent
    repeat
      first
      | exact strContains_append_right _ _ _ (strContains_self _)
      | apply strContains_append_left

/-- C5 counterexample: the Move Facts record of the code has exactly six
input values (fen, move, side, tag, best_alt, cp), so at this concrete
record the count of seven asserted by the claim is false. -/
theorem C5_counterexample_six_fields :
    (moveFactsFields
      { fen := "f", move := "m", side := "s", tag := "t",
        best_alt := "b", cp := "c" }).length = 6 ∧
    ((moveFactsFields
      { fen := "f", move := "m", side := "s", tag := "t",
        best_alt := "b", cp := "c" }).length = 7 ↔ False) := by
  decide

/-- C9: for every set of CLI argument values the user message contains
the hardcoded template lines LanguageL English, LangCode en, Type
standard and Actor bot, the first three as the fixed opening block of the
message and the Actor line bracketed by line breaks, so none of them can
be influenced by any CLI input. -/
theorem C9_hardcoded_template_lines (a : MoveArgs) :
    strContains (userContent a) "LanguageL: English" = true ∧
    strContains (userContent a) "LangCode: en" = true ∧
    strContains (userContent a) "Type: standard" = true ∧
    strContains (userContent a) "Actor: bot" = true ∧
    strContains (userContent a)
      "LanguageL: English\nLangCode: en\nType: standard\n" = true ∧
    strContains (userContent a) "\nActor: bot\n" = true := by
  refine ⟨?_, ?_, ?_, ?_, ?_, ?_⟩ <;>
  · unfold userContent
    repeat
      first
      | exact strContains_append_right _ _ _ (by decide)
      | apply strContains_append_left
      | decide

/-- Case shape of the try block body: it either succeeds with exactly one
stdout line or fails with some exception. -/
theorem tryBody_shape (env : Env) (a : MoveArgs) (d : Device) (t : Dtype) :
    (∃ s, (tryBody env a d t).1 = Except.ok [s]) ∨
    (∃ e, (tryBody env a d t).1 = Except.error e) := by
  rcases htok : env.load_tokenizer with e | u
  · exact Or.inr ⟨e, by simp [tryBody, htok]⟩
  · rcases hmod : env.load_model t d with e | u2
    · exact Or.inr ⟨e, by simp [tryBody, htok, hmod]⟩
    · rcases hgen : env.generate d genParams (env.apply_chat_template (buildMessages a))
        with e | outs
      · by_cases hrec : isRecoverable d e = true
        · rcases hretry : env.generate Device.cpu genParams
              (env.apply_chat_template (buildMessages a)) with e2 | outs2
          · exact Or.inr ⟨e2, by simp [tryBody, htok, hmod, hgen, hrec, hretry]⟩
          · exact Or.inl ⟨env.decode
                (List.drop (env.apply_chat_template (buildMessages a)).length outs2) true,
              by simp [tryBody, htok, hmod, hgen, hrec, hretry]⟩
        · exact Or.inr ⟨e, by simp [tryBody, htok, hmod, hgen, hrec]⟩
      · exact Or.inl ⟨env.decode
            (List.drop (env.apply_chat_template (buildMessages a)).length outs) true,
          by simp [tryBody, htok, hmod, hgen]⟩

/-- Every generate call recorded by the try block carries the fixed
sampling parameters. -/
theorem tryBody_params (env : Env) (a : MoveArgs) (d : Device) (t : Dtype) :
    (((tryBody env a d t).2.2).all fun c => decide (c.params = genParams)) = true := by
  rcases htok : env.load_tokenizer with e | u
  · simp [tryBody, htok]
  · rcases hmod : env.load_model t d with e | u2
    · simp [tryBody, htok, hmod]
    · rcases hgen : env.generate d genParams (env.apply_chat_template (buildMessages a))
        with e | outs
      · by_cases hrec : isRecoverable d e = true
        · rcases hretry : env.generate Device.cpu genParams
              (env.apply_chat_template (buildMessages a)) with e2 | outs2 <;>
            simp [tryBody, htok, hmod, hgen, hrec, hretry]
        · simp [tryBody, htok, hmod, hgen, hrec]
      · simp [tryBody, htok, hmod, hgen]

/-- C1: if the first generation attempt raises a RuntimeError while the
selected device is mps (full precision plan) and the failure message
contains the degenerate-probability indicator, then main moves both the
model and the input tokens to cpu and retries generation exactly once
with identical inputs and sampling parameters: the trace of generate
invocations is exactly the mps call followed by the cpu call, whatever
the outcome of the retry. -/
theorem C1_mps_cpu_single_retry (env : Env) (a : MoveArgs) (m : String)
    (hdev : planOf env = (Device.mps, Dtype.float32))
    (htok : env.load_tokenizer = Except.ok ())
    (hmod : env.load_model Dtype.float32 Device.mps = Except.ok ())
    (hgen : env.generate Device.mps genParams (inputsOf env a) =
      Except.error (PyError.runtimeError m))
    (hmsg : strContains m "probability tensor contains" = true) :
    (runMain env a).genCalls =
      [ { modelDevice := Device.mps, inputsDevice := Device.mps,
          inputs := inputsOf env a, params := genParams },
        { modelDevice := Device.cpu, inputsDevice := Device.cpu,
          inputs := inputsOf env a, params := genParams } ] := by
  have hg : env.generate Device.mps genParams
      (env.apply_chat_template (buildMessages a)) =
      Except.error (PyError.runtimeError m) := hgen
  have hrec : isRecoverable Device.mps (PyError.runtimeError m) = true := by
    simp [isRecoverable, hmsg]
  unfold runMain
  rw [hdev, finishRun_genCalls]
  rcases hretry : env.generate Device.cpu genParams
      (env.apply_chat_template (buildMessages a)) with e2 | outs2 <;>
    simp [tryBody, htok, hmod, hg, hrec, hretry, inputsOf]

/-- C3: when generation fails and either the selected device is not mps
or the failure message does not contain the degenerate-probability
indicator, no cpu retry occurs: the trace holds the single original
generate call and the exception propagates to the top-level handler,
which reports it on stderr and exits with code 1. -/
theorem C3_no_retry_propagates (env : Env) (a : MoveArgs) (e : PyError)
    (htok : env.load_tokenizer = Except.ok ())
    (hmod : env.load_model (planOf env).2 (planOf env).1 = Except.ok ())
    (hgen : env.generate (planOf env).1 genParams (inputsOf env a) =
      Except.error e)
    (hcase : (planOf env).1 ≠ Device.mps ∨
      strContains e.msg "probability tensor contains" = false) :
    (runMain env a).exitCode = 1 ∧
    (runMain env a).genCalls =
      [ { modelDevice := (planOf env).1, inputsDevice := (planOf env).1,
          inputs := inputsOf env a, params := genParams } ] ∧
    (runMain env a).stderr.getLast? = some ("Error: " ++ e.msg) := by
  have hg : env.generate (planOf env).1 genParams
      (env.apply_chat_template (buildMessages a)) = Except.error e := hgen
  have hrec : isRecoverable (planOf env).1 e = false := by
    cases e with
    | runtimeError m =>
      rcases hcase with h | h
      · simp [isRecoverable, h]
      · simp only [PyError.msg] at h
        simp [isRecoverable, h]
    | otherError m => rfl
  unfold runMain finishRun
  simp [tryBody, htok, hmod, hg, hrec, inputsOf, PyError.msg]

/-- C4: on successful generation, whether on the first attempt or after
the single cpu retry, the printed output is the decode of exactly the
tokens of the model output past the length of the input token sequence,
with special tokens suppressed, and the process succeeds. -/
theorem C4_decode_suffix (env : Env) (a : MoveArgs) (outs : List Nat)
    (htok : env.load_tokenizer = Except.ok ())
    (hmod : env.load_model (planOf env).2 (planOf env).1 = Except.ok ()) :
    (env.generate (planOf env).1 genParams (inputsOf env a) = Except.ok outs →
      (runMain env a).stdout =
        [env.decode (List.drop (inputsOf env a).length outs) true] ∧
      (runMain env a).exitCode = 0) ∧
    (∀ e, env.generate (planOf env).1 genParams (inputsOf env a) =
        Except.error e →
      isRecoverable (planOf env).1 e = true →
      env.generate Device.cpu genParams (inputsOf env a) = Except.ok outs →
      (runMain env a).stdout =
        [env.decode (List.drop (inputsOf env a).length outs) true] ∧
      (runMain env a).exitCode = 0) := by
  constructor
  · intro hgen
    have hg : env.generate (planOf env).1 genParams
        (env.apply_chat_template (buildMessages a)) = Except.ok outs := hgen
    unfold runMain finishRun
    simp [tryBody, htok, hmod, hg, inputsOf]
  · intro e hgen hrec hretry
    have hg : env.generate (planOf env).1 genParams
        (env.apply_chat_template (buildMessages a)) = Except.error e := hgen
    have hr : env.generate Device.cpu genParams
        (env.apply_chat_template (buildMessages a)) = Except.ok outs := hretry
    unfold runMain finishRun
    simp [tryBody, htok, hmod, hg, hrec, hr, inputsOf]

/-- C6: every run of the load-and-generate flow terminates in one of two
disciplined states: success with exit code 0 and exactly one stdout line
(the generated commentary), or failure with exit code 1, no stdout, and a
final stderr line of the form Error followed by the exception message; no
failure escapes the single top-level boundary unformatted. -/
theorem C6_top_level_boundary (env : Env) (a : MoveArgs) :
    ((runMain env a).exitCode = 0 ∧ (runMain env a).stdout.length = 1) ∨
    ((runMain env a).exitCode = 1 ∧ (runMain env a).stdout = [] ∧
      ∃ m, (runMain env a).stderr.getLast? = some ("Error: " ++ m)) := by
  rcases tryBody_shape env a (planOf env).1 (planOf env).2 with ⟨s, hs⟩ | ⟨e, he⟩
  · left
    unfold runMain finishRun
    rw [hs]
    simp
  · right
    unfold runMain finishRun
    rw [he]
    exact ⟨rfl, rfl, e.msg, List.getLast?_concat _⟩

/-- C8: the sampling parameters are the fixed triple of 256 maximum new
tokens, temperature 7/10 and stochastic sampling enabled, and every
generate invocation of any run, first attempt and cpu retry alike, uses
exactly these parameters. -/
theorem C8_fixed_sampling_params (env : Env) (a : MoveArgs) :
    genParams.max_new_tokens = 256 ∧ genParams.temperature = 7/10 ∧
    genParams.do_sample = true ∧
    ((runMain env a).genCalls.all fun c => decide (c.params = genParams)) = true := by
  refine ⟨rfl, rfl, rfl, ?_⟩
  unfold runMain
  rw [finishRun_genCalls]
  exact tryBody_params env a (planOf env).1 (planOf env).2

/-- C7 (amended): if any one of the six required CLI flags is absent,
argparse terminates the process with the usage-error status 2 before
device selection begins and without any attempt to load the model or the
tokenizer, and no generation call is ever recorded. -/
theorem C7_missing_argument_usage_exit (env : Env) (v : Argv)
    (h : v.fen = none ∨ v.move = none ∨ v.side = none ∨ v.tag = none ∨
      v.best_alt = none ∨ v.cp = none) :
    (runCLI env v).exitCode = 2 ∧ (runCLI env v).stdout = [] ∧
    (runCLI env v).genCalls = [] ∧ (runCLI env v).loadAttempted = false ∧
    (runCLI env v).devicePlan = none := by
  have hp : parseArgs v = none := by
    obtain ⟨f, m, s, t, b, c⟩ := v
    cases f <;> cases m <;> cases s <;> cases t <;> cases b <;> cases c <;>
      simp_all [parseArgs]
  simp [runCLI, hp, usageErrorResult]

/-! Concrete environments and inputs used to evaluate the theorems. -/

/-- The end-to-end sample invocation of the spec. -/
def sampleArgs : MoveArgs :=
  { fen := "rnbqkbnr/pppppppp/8/8/4P3/8/PPPP1PPP/RNBQKBNR b KQkq e4 0 1",
    move := "c5", side := "Black", tag := "Best", best_alt := "e5",
    cp := "27->21 (Δ=6)" }

/-- Environment where only mps is available; generation fails on mps
with a degenerate-probability RuntimeError and succeeds on cpu. -/
def mpsFailEnv : Env :=
  { cuda_available := false, mps_available := true,
    load_tokenizer := Except.ok (),
    load_model := fun _ _ => Except.ok (),
    apply_chat_template := fun _ => [10, 11],
    generate := fun d _ _ =>
      if d = Device.mps then
        Except.error (PyError.runtimeError
          "probability tensor contains either inf, nan or element < 0")
      else Except.ok [10, 11, 20, 21],
    decode := fun ts skip => if skip then toString ts else "raw " ++ toString ts }

/-- Environment where cuda is available and generation always fails. -/
def cudaFailEnv : Env :=
  { cuda_available := true, mps_available := false,
    load_tokenizer := Except.ok (),
    load_model := fun _ _ => Except.ok (),
    apply_chat_template := fun _ => [10, 11],
    generate := fun _ _ _ =>
      Except.error (PyError.runtimeError "CUDA error: device-side assert triggered"),
    decode := fun ts skip => if skip then toString ts else "raw " ++ toString ts }

/-- Environment with neither backend; generation echoes the two dummy
prompt tokens followed by two known generated tokens. -/
def cpuOkEnv : Env :=
  { cuda_available := false, mps_available := false,
    load_tokenizer := Except.ok (),
    load_model := fun _ _ => Except.ok (),
    apply_chat_template := fun _ => [10, 11],
    generate := fun _ _ _ => Except.ok [10, 11, 20, 21],
    decode := fun ts skip => if skip then toString ts else "raw " ++ toString ts }

/-- A command line with every flag but fen supplied. -/
def argvMissingFen : Argv :=
  { fen := none, move := some "c5", side := some "Black", tag := some "Best",
    best_alt := some "e5", cp := some "27->21" }

/-- C1 witness: the hypotheses of the retry theorem hold in the concrete
mps environment and the resulting trace is the mps call followed by the
cpu call. -/
theorem C1_mps_cpu_single_retry_witness :
    (runMain mpsFailEnv sampleArgs).genCalls =
      [ { modelDevice := Device.mps, inputsDevice := Device.mps,
          inputs := inputsOf mpsFailEnv sampleArgs, params := genParams },
        { modelDevice := Device.cpu, inputsDevice := Device.cpu,
          inputs := inputsOf mpsFailEnv sampleArgs, params := genParams } ] :=
  C1_mps_cpu_single_retry mpsFailEnv sampleArgs
    "probability tensor contains either inf, nan or element < 0"
    rfl rfl rfl rfl (by decide)

/-- C3 witness: a cuda failure propagates with no retry in the concrete
cuda environment. -/
theorem C3_no_retry_propagates_witness :
    (runMain cudaFailEnv sampleArgs).exitCode = 1 ∧
    (runMain cudaFailEnv sampleArgs).genCalls =
      [ { modelDevice := (planOf cudaFailEnv).1,
          inputsDevice := (planOf cudaFailEnv).1,
          inputs := inputsOf cudaFailEnv sampleArgs, params := genParams } ] ∧
    (runMain cudaFailEnv sampleArgs).stderr.getLast? =
      some ("Error: " ++ "CUDA error: device-side assert triggered") :=
  C3_no_retry_propagates cudaFailEnv sampleArgs
    (PyError.runtimeError "CUDA error: device-side assert triggered")
    rfl rfl rfl (Or.inl (by decide))

/-- C4 witness: with dummy prompt tokens 10, 11 and generated tokens 20,
21, the printed text is the decode of exactly the two generated tokens. -/
theorem C4_decode_suffix_witness :
    (runMain cpuOkEnv sampleArgs).stdout =
      [cpuOkEnv.decode
        (List.drop (inputsOf cpuOkEnv sampleArgs).length [10, 11, 20, 21]) true] ∧
    (runMain cpuOkEnv sampleArgs).exitCode = 0 :=
  (C4_decode_suffix cpuOkEnv sampleArgs [10, 11, 20, 21] rfl rfl).1 rfl

/-- C7 witness: dropping only the fen flag gives the usage-error exit
with no device plan and no load attempt. -/
theorem C7_missing_argument_usage_exit_witness :
    (runCLI cpuOkEnv argvMissingFen).exitCode = 2 ∧
    (runCLI cpuOkEnv argvMissingFen).stdout = [] ∧
    (runCLI cpuOkEnv argvMissingFen).genCalls = [] ∧
    (runCLI cpuOkEnv argvMissingFen).loadAttempted = false ∧
    (runCLI cpuOkEnv argvMissingFen).devicePlan = none :=
  C7_missing_argument_usage_exit cpuOkEnv argvMissingFen (Or.inl rfl)

/-- C7 counterexample: with the fen flag absent the process exits with
status 2, so the exit code 1 asserted by the claim is false at this
concrete command line. -/
theorem C7_counterexample_exit_code :
    (runCLI cudaFailEnv argvMissingFen).exitCode = 2 ∧
    ((runCLI cudaFailEnv argvMissingFen).exitCode = 1 ↔ False) := by
  constructor
  · rfl
  · simp [runCLI, parseArgs, argvMissingFen, usageErrorResult]

end ChessMCP
